import Mathlib

/-
Verification of the TodoApp client (app.js, refactored TodoApp-class version).

Shallow embedding: each <li> element of the todo list is a `TodoItem`
carrying the DOM state the handlers read and write (dataset.todoId,
dataset.taskText, the "completed" class, dataset.completedTime,
dataset.createdAt, the "editing" class, the "hidden" class).  The remote
store is external: each embedded operation takes the outcome of its
remote call(s) as a parameter (`true`/`some _` = the fetch resolved with
a 2xx response, `false`/`none` = `_apiRequest` threw).
-/

namespace TodoApp

/-- The value of `_currentFilter`: one of the strings "all", "active",
"completed". -/
inductive FilterKind
  | all
  | active
  | completed
  deriving DecidableEq

/-- One list item (an `<li>` inside `#todo-list`), as the handlers see it. -/
structure TodoItem where
  /-- `dataset.todoId`; `none` when the element carries no backend id
  (the handlers test it with a truthiness check `if (todoId)`). -/
  todoId : Option Nat
  /-- `dataset.taskText`. -/
  taskText : String
  /-- whether `classList` contains "completed". -/
  completedClass : Bool
  /-- `dataset.completedTime` (a millisecond timestamp), absent when the
  attribute was deleted or never set. -/
  completedTime : Option Nat
  /-- `dataset.createdAt` (modelled as a millisecond timestamp). -/
  createdAt : Option Nat
  /-- whether `classList` contains "editing". -/
  editing : Bool
  /-- whether `classList` contains "hidden" (set by `_applyFilter`). -/
  hidden : Bool
  deriving DecidableEq

/-- A backend todo object `{id, title, description, completed, created_at}`
as returned by the API (`created_at` modelled as a timestamp). -/
structure Todo where
  id : Nat
  title : String
  description : String
  completed : Bool
  created_at : Nat
  deriving DecidableEq

/-- JS `String.prototype.trim()`: drops whitespace from both ends of the
string. -/
def trimString (s : String) : String :=
  String.mk (((s.data.dropWhile Char.isWhitespace).reverse.dropWhile
    Char.isWhitespace).reverse)

/-- Does a list item pass the current filter?  "all" keeps everything,
"active" keeps items without the "completed" class, "completed" keeps items
with it (the complement of the two `classList.add("hidden")` conditions in
`_applyFilter`). -/
def matchesFilter (f : FilterKind) (t : TodoItem) : Bool :=
  match f with
  | .all => true
  | .active => !t.completedClass
  | .completed => t.completedClass

/-- The body of `_applyFilter` for one `<li>`: first
`classList.remove("hidden")`, then add "hidden" back when the current filter
is "active" and the item has the "completed" class, or the filter is
"completed" and the item lacks it. -/
def applyFilterItem (f : FilterKind) (t : TodoItem) : TodoItem :=
  let t0 : TodoItem := { t with hidden := false }
  match f with
  | .active => if t0.completedClass then { t0 with hidden := true } else t0
  | .completed => if !t0.completedClass then { t0 with hidden := true } else t0
  | .all => t0

/-- `_applyFilter`: runs the show/hide logic over every `<li>` of the list,
in place. -/
def applyFilter (f : FilterKind) (l : List TodoItem) : List TodoItem :=
  l.map (applyFilterItem f)

/-- The items the user actually sees: those without the "hidden" class, in
DOM order. -/
def visibleTasks (l : List TodoItem) : List TodoItem :=
  l.filter (fun t => !t.hidden)

/-- An item with the "hidden" class removed (how `_applyFilter` leaves any
item the filter keeps). -/
def unhide (t : TodoItem) : TodoItem :=
  { t with hidden := false }

/-- The `<li>` built by `_createTodoElement` from a backend todo object:
`dataset.todoId` and `dataset.taskText` are set from `todo.id` and
`todo.title`, `dataset.createdAt` from `todo.created_at`, and when
`todo.completed` is set the "completed" class is added and
`dataset.completedTime` is initialised from `todo.created_at` (the code
uses `new Date(todo.created_at).getTime()`). -/
def mkTodoElement (todo : Todo) : TodoItem :=
  { todoId := some todo.id
    taskText := todo.title
    completedClass := todo.completed
    completedTime := if todo.completed then some todo.created_at else none
    createdAt := some todo.created_at
    editing := false
    hidden := false }

/-- Result of one run of `addTodo`: the list as it stands at the moment the
`POST /todos` request is issued, the list after the handler finishes, and
whether the remote create call was issued at all. -/
structure AddOutcome where
  listBeforeRemote : List TodoItem
  listAfter : List TodoItem
  remoteCalled : Bool
  deriving DecidableEq

/-- `addTodo`: trims the input; an empty result is rejected with an alert
and no further action.  Otherwise `_saveTodo` (the remote create) runs
first; only on success is `_createTodoElement(newTodo)` appended to the
list and counter + filter refreshed; on failure the catch block only logs.
`result` is the settled outcome of the remote create (`none` = it threw). -/
def addTodo (f : FilterKind) (l : List TodoItem) (input : String)
    (result : Option Todo) : AddOutcome :=
  if trimString input = "" then ⟨l, l, false⟩
  else
    match result with
    | some todo => ⟨l, applyFilter f (l ++ [mkTodoElement todo]), true⟩
    | none => ⟨l, l, true⟩

/-- The synchronous prefix of the `contentDiv` click handler, before the
`await`: `classList.toggle("completed")`; when the item was not completed,
record `dataset.completedTime = Date.now()`; when it was, delete
`dataset.completedTime`. -/
def togglePhaseA (s : TodoItem) (now : Nat) : TodoItem :=
  if s.completedClass then
    { s with completedClass := false, completedTime := none }
  else
    { s with completedClass := true, completedTime := some now }

/-- The resumption of the `contentDiv` click handler once the `PUT` settles:
nothing on success; on failure the catch block runs
`li.classList.toggle("completed")` (and touches nothing else).  When the
item carries no `dataset.todoId`, no remote call was issued, so no failure
can occur. -/
def toggleSettle (s : TodoItem) (ok : Bool) : TodoItem :=
  if s.todoId.isSome && !ok then { s with completedClass := !s.completedClass }
  else s

/-- One full `contentDiv` click (a ToggleComplete): guarded by the "editing"
class; then the synchronous toggle, the remote `PUT` settling with outcome
`ok`, and finally `_updateTaskCounter(); _applyFilter()` which run on both
the success and the failure path. -/
def toggleComplete (f : FilterKind) (s : TodoItem) (now : Nat) (ok : Bool) :
    TodoItem :=
  if s.editing then s
  else applyFilterItem f (toggleSettle (togglePhaseA s now) ok)

/-- Two `contentDiv` clicks issued back-to-back, both synchronous prefixes
running before either `PUT` settles (there is no per-id queue in the code:
each click handler runs its synchronous part immediately and suspends at
`await`).  Then the first handler resumes (its settle action followed by
its trailing counter + filter refresh), then the second.  Neither the
"editing" class nor `dataset.todoId` is changed by any of these steps, so
the guard outcome of the second click equals that of the first. -/
def toggleBackToBack (f : FilterKind) (s0 : TodoItem) (t1 t2 : Nat)
    (o1 o2 : Bool) : TodoItem :=
  if s0.editing then s0
  else
    applyFilterItem f (toggleSettle
      (applyFilterItem f (toggleSettle
        (togglePhaseA (togglePhaseA s0 t1) t2) o1)) o2)

/-- `_saveEdit`: trims the edit input; empty means alert and return.  When
`dataset.todoId` is absent, nothing at all happens (the whole update,
remote and local, sits inside `if (todoId)`).  Otherwise the remote `PUT`
runs first and only on success are `dataset.taskText`, the content text and
the edit input updated and the "editing" class removed; the catch block
only logs. -/
def saveEdit (s : TodoItem) (raw : String) (ok : Bool) : TodoItem :=
  let newText := trimString raw
  if newText = "" then s
  else if s.todoId.isSome then
    if ok then { s with taskText := newText, editing := false }
    else s
  else s

/-- Result of one delete-button click: the list afterwards, whether a remote
`DELETE` was issued, and whether the counter (and filter) refresh ran. -/
structure DeleteOutcome where
  items : List TodoItem
  remoteCalled : Bool
  counterUpdated : Bool
  deriving DecidableEq

/-- The delete-button click handler, acting on the `i`-th `<li>` of the
list: inside the try block, when `dataset.todoId` is present the remote
delete is awaited first (on failure the catch block only logs and the
element stays); then `li.remove()`, `_updateTaskCounter()` and
`_applyFilter()`.  When `dataset.todoId` is absent the remote call is
skipped and the removal happens unconditionally. -/
def deleteClick (f : FilterKind) (l : List TodoItem) (i : Nat) (ok : Bool) :
    DeleteOutcome :=
  match l[i]? with
  | none => ⟨l, false, false⟩
  | some t =>
    if t.todoId.isSome then
      if ok then ⟨applyFilter f (l.eraseIdx i), true, true⟩
      else ⟨l, true, false⟩
    else ⟨applyFilter f (l.eraseIdx i), false, true⟩

/-- `clearAllTodos`: alert and return when the list is empty; then a
`confirm` gate; then one `deleteTodo` per `<li>` that carries a
`dataset.todoId` (issued eagerly by `Array.map`, so every delete is
attempted regardless of how the others fare), joined with `Promise.all`.
Only when every issued delete resolves is the UI cleared
(`innerHTML = ""`); if any rejects, the catch block alerts and the list is
left untouched.  Returns the resulting list and the ids whose remote
delete was issued. -/
def clearAllTodos (l : List TodoItem) (confirmed : Bool) (ok : Nat → Bool) :
    List TodoItem × List Nat :=
  if l.isEmpty then (l, [])
  else if !confirmed then (l, [])
  else
    let issued := l.filterMap (fun t => t.todoId)
    if issued.all ok then ([], issued)
    else (l, issued)

/-- `clearCompletedTodos`: selects the `<li>` elements with the "completed"
class; alert and return when there are none; then a `confirm` gate; then
one `deleteTodo` per selected element that carries a `dataset.todoId`
(again issued eagerly, independent of each other), joined with
`Promise.all`.  Only when every issued delete resolves are the selected
elements removed and counter + filter refreshed; if any rejects, the catch
block alerts and the list is left untouched. -/
def clearCompletedTodos (f : FilterKind) (l : List TodoItem)
    (confirmed : Bool) (ok : Nat → Bool) : List TodoItem × List Nat :=
  let completedTasks := l.filter (fun t => t.completedClass)
  if completedTasks.isEmpty then (l, [])
  else if !confirmed then (l, [])
  else
    let issued := completedTasks.filterMap (fun t => t.todoId)
    if issued.all ok then
      (applyFilter f (l.filter (fun t => !t.completedClass)), issued)
    else (l, issued)

/-- Events on the `#loading-bar` element: `_showLoading` runs
`classList.add("active")` at the entry of every `_apiRequest`, and
`_hideLoading` runs `classList.remove("active")` in its `finally` block. -/
inductive LoadEvent
  | start
  | stop
  deriving DecidableEq

/-- Effect of one loading event on the presence of the "active" class:
`add` makes it present, `remove` makes it absent — a plain boolean, with no
memory of how many requests are in flight. -/
def loadingStep (_b : Bool) (e : LoadEvent) : Bool :=
  match e with
  | .start => true
  | .stop => false

/-- Whether the "active" class is present after a sequence of show/hide
events, starting from the bar being inactive. -/
def loadingAfter (es : List LoadEvent) : Bool :=
  es.foldl loadingStep false

/-- Ghost counter: the number of `_apiRequest` calls still in flight after
a sequence of events (each request contributes one `start` at entry and
one `stop` when it settles). -/
def inFlightStep (n : Nat) (e : LoadEvent) : Nat :=
  match e with
  | .start => n + 1
  | .stop => n - 1

/-- Number of in-flight requests after a sequence of events. -/
def inFlightAfter (es : List LoadEvent) : Nat :=
  es.foldl inFlightStep 0

/-- Helper: the per-item filter action only rewrites the "hidden" class,
to the negation of whether the item passes the filter. -/
theorem applyFilterItem_eq (f : FilterKind) (t : TodoItem) :
    applyFilterItem f t = { t with hidden := !(matchesFilter f t) } := by
  cases f <;> simp [applyFilterItem, matchesFilter] <;>
    cases h : t.completedClass <;> simp [h]

/-- Helper: a failed remote update during `_saveEdit` leaves the item
exactly as it was (every optimistic-looking write sits after the `await`). -/
theorem saveEdit_fail_eq (s : TodoItem) (raw : String) :
    saveEdit s raw false = s := by
  by_cases h : trimString raw = "" <;>
    by_cases h2 : s.todoId.isSome <;> simp [saveEdit, h, h2]

/-- Helper: the visible items after `_applyFilter` are exactly the items
passing the filter, in order, each with the "hidden" class removed. -/
theorem visible_after_filter (f : FilterKind) (l : List TodoItem) :
    visibleTasks (applyFilter f l) = (l.filter (matchesFilter f)).map unhide := by
  induction l with
  | nil => rfl
  | cons t ts ih =>
    simp only [applyFilter, List.map_cons, visibleTasks, List.filter_cons,
      applyFilterItem_eq] at ih ⊢
    cases h : matchesFilter f t <;> simp [h, ih, unhide]

/-- C7: for every snapshot of the list and every filter, the visible set is
exactly the items the filter admits — "active" keeps the items without the
"completed" class, "completed" keeps the items with it, "all" keeps every
item — and the visible items appear in the same relative order as in the
input (the filter only rewrites the "hidden" class, never reorders). -/
theorem visible_filter_sound (l : List TodoItem) :
    visibleTasks (applyFilter FilterKind.all l) = l.map unhide ∧
    visibleTasks (applyFilter FilterKind.active l) =
      (l.filter (fun t => !t.completedClass)).map unhide ∧
    visibleTasks (applyFilter FilterKind.completed l) =
      (l.filter (fun t => t.completedClass)).map unhide := by
  have hall : matchesFilter FilterKind.all = fun _ => true := rfl
  refine ⟨?_, ?_, ?_⟩
  · rw [visible_after_filter, hall, List.filter_true]
  · exact visible_after_filter FilterKind.active l
  · exact visible_after_filter FilterKind.completed l

/-- C5: when the remote replace call fails during a single ToggleComplete
on an item that carries a backend id (and is not in edit mode, so the
toggle actually runs), the "completed" state after the handler finishes
equals the state before the click: the catch block toggles the class
back. -/
theorem toggle_fail_restores_completed (f : FilterKind) (s : TodoItem)
    (now : Nat) (he : s.editing = false) (hid : s.todoId.isSome = true) :
    (toggleComplete f s now false).completedClass = s.completedClass := by
  cases hc : s.completedClass <;>
    simp [toggleComplete, togglePhaseA, toggleSettle, applyFilterItem_eq,
      he, hc, hid]

/-- Witness for C5 at a concrete uncompleted item with backend id 1. -/
theorem toggle_fail_restores_completed_witness :
    (⟨some 1, "A", false, none, some 0, false, false⟩ : TodoItem).editing
        = false ∧
    (⟨some 1, "A", false, none, some 0, false, false⟩ :
        TodoItem).todoId.isSome = true ∧
    (toggleComplete FilterKind.all
        ⟨some 1, "A", false, none, some 0, false, false⟩ 3
        false).completedClass
      = (⟨some 1, "A", false, none, some 0, false, false⟩ :
        TodoItem).completedClass :=
  ⟨rfl, rfl, toggle_fail_restores_completed FilterKind.all
    ⟨some 1, "A", false, none, some 0, false, false⟩ 3 rfl rfl⟩

/-- C6: `addTodo` with an input whose trim is empty alerts and returns
before anything else: no remote create call is issued and the list is
unchanged, both at the moment a remote call would have been made and after
the handler finishes. -/
theorem addTodo_empty_input_rejected (f : FilterKind) (l : List TodoItem)
    (input : String) (r : Option Todo) (h : trimString input = "") :
    addTodo f l input r = ⟨l, l, false⟩ := by
  simp [addTodo, h]

/-- Witness for C6 on whitespace-only input. -/
theorem addTodo_empty_input_rejected_witness :
    trimString "   " = "" ∧
    addTodo FilterKind.all [] "   " none = ⟨[], [], false⟩ :=
  ⟨by decide, addTodo_empty_input_rejected FilterKind.all [] "   " none
    (by decide)⟩

/-- C10: the delete-button click on a list item that carries no backend id
(`dataset.todoId` absent) issues no remote call and still removes the item
from the list, refreshing counter and filter — a purely local removal. -/
theorem deleteClick_no_id_local (f : FilterKind) (l : List TodoItem)
    (i : Nat) (t : TodoItem) (ok : Bool) (h1 : l[i]? = some t)
    (h2 : t.todoId = none) :
    deleteClick f l i ok = ⟨applyFilter f (l.eraseIdx i), false, true⟩ := by
  simp [deleteClick, h1, h2]

/-- Witness for C10 on a one-element list whose item has no backend id. -/
theorem deleteClick_no_id_local_witness :
    ([(⟨none, "A", false, none, none, false, false⟩ : TodoItem)])[0]?
        = some ⟨none, "A", false, none, none, false, false⟩ ∧
    (⟨none, "A", false, none, none, false, false⟩ : TodoItem).todoId
        = none ∧
    deleteClick FilterKind.all
        [⟨none, "A", false, none, none, false, false⟩] 0 true
      = ⟨applyFilter FilterKind.all
          (([(⟨none, "A", false, none, none, false, false⟩ :
            TodoItem)]).eraseIdx 0), false, true⟩ :=
  ⟨rfl, rfl, deleteClick_no_id_local FilterKind.all
    [⟨none, "A", false, none, none, false, false⟩] 0
    ⟨none, "A", false, none, none, false, false⟩ true rfl rfl⟩

/-- C1 counterexample: an uncompleted item with backend id 1 is toggled
twice back-to-back (both synchronous toggles run before either `PUT`
settles).  The second call implies the original state (`completed = false`,
two flips), but when the first `PUT` fails and the second succeeds, the
late `classList.toggle` of the first handler leaves the item completed — the
state implied by the first call. -/
theorem toggleBackToBack_stale_rollback_cex :
    (⟨some 1, "A", false, none, some 0, false, false⟩ :
        TodoItem).completedClass = false ∧
    (toggleBackToBack FilterKind.all
        ⟨some 1, "A", false, none, some 0, false, false⟩ 5 6 false
        true).completedClass = true := by
  decide

/-- C1 (amended): the code has no per-identifier queue; the serialization
claim only holds on the all-success path.  When both remote replace calls
succeed, the final "completed" state is the one implied by the second call
(the doubly-toggled, i.e. original, value); but when the first call fails
and the second succeeds, the rollback of the first handler fires after the
optimistic toggle of the second and leaves the state implied by the first
call. -/
theorem toggleBackToBack_outcomes (f : FilterKind) (s0 : TodoItem)
    (t1 t2 : Nat) (he : s0.editing = false)
    (hid : s0.todoId.isSome = true) :
    (toggleBackToBack f s0 t1 t2 true true).completedClass
        = s0.completedClass ∧
    (toggleBackToBack f s0 t1 t2 false true).completedClass
        = !s0.completedClass := by
  cases hc : s0.completedClass <;>
    simp [toggleBackToBack, togglePhaseA, toggleSettle, applyFilterItem_eq,
      he, hc, hid]

/-- Witness for the amended C1 at a concrete uncompleted item. -/
theorem toggleBackToBack_outcomes_witness :
    (⟨some 1, "A", false, none, some 0, false, false⟩ : TodoItem).editing
        = false ∧
    (⟨some 1, "A", false, none, some 0, false, false⟩ :
        TodoItem).todoId.isSome = true ∧
    (toggleBackToBack FilterKind.all
        ⟨some 1, "A", false, none, some 0, false, false⟩ 5 6 true
        true).completedClass
      = (⟨some 1, "A", false, none, some 0, false, false⟩ :
        TodoItem).completedClass :=
  ⟨rfl, rfl, (toggleBackToBack_outcomes FilterKind.all
    ⟨some 1, "A", false, none, some 0, false, false⟩ 5 6 rfl rfl).1⟩

/-- C2 counterexample: `addTodo` with the non-empty title "Buy milk" issues
the remote create while the local list is still empty — no pending entry is
ever inserted before the remote call, contradicting the claimed
insert-pending-then-create order. -/
theorem addTodo_no_pending_cex :
    (addTodo FilterKind.all [] "Buy milk"
        (some ⟨3, "Buy milk", "", false, 100⟩)).remoteCalled = true ∧
    (addTodo FilterKind.all [] "Buy milk"
        (some ⟨3, "Buy milk", "", false, 100⟩)).listBeforeRemote = [] := by
  decide

/-- C2 (amended): `addTodo` with a non-empty trimmed title is remote-first,
not optimistic: at the moment the `POST` is issued the list is unchanged
(no pending entry); on remote success the confirmed element is appended at
the end of the list (and the filter re-applied); on remote failure the list
is left exactly as it was. -/
theorem addTodo_remote_first (f : FilterKind) (l : List TodoItem)
    (input : String) (todo : Todo) (h : trimString input ≠ "") :
    (addTodo f l input (some todo)).listBeforeRemote = l ∧
    (addTodo f l input none).listBeforeRemote = l ∧
    (addTodo f l input (some todo)).remoteCalled = true ∧
    (addTodo f l input none).remoteCalled = true ∧
    (addTodo f l input (some todo)).listAfter
        = applyFilter f (l ++ [mkTodoElement todo]) ∧
    (addTodo f l input none).listAfter = l := by
  simp [addTodo, h]

/-- Witness for the amended C2 at the "Buy milk" scenario. -/
theorem addTodo_remote_first_witness :
    trimString "Buy milk" ≠ "" ∧
    (addTodo FilterKind.all [] "Buy milk"
        (some ⟨3, "Buy milk", "", false, 100⟩)).listAfter
      = applyFilter FilterKind.all
          ([] ++ [mkTodoElement ⟨3, "Buy milk", "", false, 100⟩]) :=
  ⟨by decide, (addTodo_remote_first FilterKind.all [] "Buy milk"
    ⟨3, "Buy milk", "", false, 100⟩ (by decide)).2.2.2.2.1⟩

/-- C4 counterexample: a completed item with `dataset.completedTime = 5` is
toggled while the remote replace fails.  The catch block restores only the
"completed" class; the deleted `dataset.completedTime` is not restored, so
the pre-mutation snapshot is not recovered in full. -/
theorem toggle_rollback_incomplete_cex :
    (⟨some 2, "B", true, some 5, some 1, false, false⟩ :
        TodoItem).completedTime = some 5 ∧
    (toggleComplete FilterKind.all
        ⟨some 2, "B", true, some 5, some 1, false, false⟩ 9
        false).completedTime = none := by
  decide

/-- C4 (amended): on a failed remote replace during ToggleComplete the
rollback restores the "completed" class (and leaves id, title, creation
time and edit state untouched) but does not restore `completedTime`: the
completion timestamp ends up cleared when the item was completed, and set
to the click time when it was not.  A failed remote update during Edit
(`_saveEdit`) leaves the edited item entirely unchanged — stated for an
arbitrary item `s2` with no restriction on its "editing" class, since every
item a failing `_saveEdit` acts on carries that class: the code applies no
optimistic mutation for edits, and every write, including the removal of
the "editing" class, sits after the `await`.  The hypotheses `he`/`hid`
characterize the toggle scenario only (the toggle handler runs only outside
edit mode and a replace can fail only when an id was present). -/
theorem toggle_edit_fail_rollback (f : FilterKind) (s s2 : TodoItem)
    (now : Nat) (raw : String) (he : s.editing = false)
    (hid : s.todoId.isSome = true) :
    (toggleComplete f s now false).completedClass = s.completedClass ∧
    (toggleComplete f s now false).taskText = s.taskText ∧
    (toggleComplete f s now false).todoId = s.todoId ∧
    (toggleComplete f s now false).createdAt = s.createdAt ∧
    (toggleComplete f s now false).editing = s.editing ∧
    (toggleComplete f s now false).completedTime
        = (if s.completedClass then none else some now) ∧
    saveEdit s2 raw false = s2 := by
  refine ⟨?_, ?_, ?_, ?_, ?_, ?_, saveEdit_fail_eq s2 raw⟩ <;>
    cases hc : s.completedClass <;>
      simp [toggleComplete, togglePhaseA, toggleSettle, applyFilterItem_eq,
        he, hc, hid]

/-- Witness for the amended C4: the toggle half at a concrete completed
item, and the Edit half at a concrete item that is in edit mode (carrying
the "editing" class), as every item a failing `_saveEdit` acts on is. -/
theorem toggle_edit_fail_rollback_witness :
    (⟨some 2, "B", true, some 5, some 1, false, false⟩ : TodoItem).editing
        = false ∧
    (⟨some 2, "B", true, some 5, some 1, false, false⟩ :
        TodoItem).todoId.isSome = true ∧
    (⟨some 3, "C", false, none, some 1, true, false⟩ : TodoItem).editing
        = true ∧
    (toggleComplete FilterKind.all
        ⟨some 2, "B", true, some 5, some 1, false, false⟩ 9
        false).completedClass
      = (⟨some 2, "B", true, some 5, some 1, false, false⟩ :
        TodoItem).completedClass ∧
    saveEdit ⟨some 3, "C", false, none, some 1, true, false⟩ "D" false
      = ⟨some 3, "C", false, none, some 1, true, false⟩ :=
  ⟨rfl, rfl, rfl,
    (toggle_edit_fail_rollback FilterKind.all
      ⟨some 2, "B", true, some 5, some 1, false, false⟩
      ⟨some 3, "C", false, none, some 1, true, false⟩ 9 "D" rfl rfl).1,
    (toggle_edit_fail_rollback FilterKind.all
      ⟨some 2, "B", true, some 5, some 1, false, false⟩
      ⟨some 3, "C", false, none, some 1, true, false⟩ 9 "D" rfl
      rfl).2.2.2.2.2.2⟩

/-- C8 counterexample: an item that is already completed (with
`dataset.completedTime = 5`) is toggled twice, both remote calls
succeeding.  The "completed" class does return to its original value, but
the second toggle records a fresh completion time (the time of the second
click), so the double toggle does not leave the item without a
`completedAt` value. -/
theorem toggle_twice_completedAt_cex :
    (toggleComplete FilterKind.all
        (toggleComplete FilterKind.all
          ⟨some 1, "A", true, some 5, some 0, false, false⟩ 5 true) 6
        true).completedTime = some 6 ∧
    ¬ (toggleComplete FilterKind.all
        (toggleComplete FilterKind.all
          ⟨some 1, "A", true, some 5, some 0, false, false⟩ 5 true) 6
        true).completedTime = none := by
  decide

/-- C8 (amended): toggling twice with both remote calls succeeding returns
the "completed" class to its original value; `completedTime` ends up absent
when the item was originally uncompleted, and equal to the time of the
second toggle when the item was originally completed. -/
theorem toggle_twice_round_trip (f : FilterKind) (s : TodoItem)
    (t1 t2 : Nat) (he : s.editing = false) :
    (toggleComplete f (toggleComplete f s t1 true) t2 true).completedClass
        = s.completedClass ∧
    (toggleComplete f (toggleComplete f s t1 true) t2 true).completedTime
        = (if s.completedClass then some t2 else none) := by
  cases hc : s.completedClass <;>
    simp [toggleComplete, togglePhaseA, toggleSettle, applyFilterItem_eq,
      he, hc]

/-- Witness for the amended C8 at a concrete uncompleted item. -/
theorem toggle_twice_round_trip_witness :
    (⟨some 1, "A", false, none, some 0, false, false⟩ : TodoItem).editing
        = false ∧
    (toggleComplete FilterKind.all
        (toggleComplete FilterKind.all
          ⟨some 1, "A", false, none, some 0, false, false⟩ 5 true) 6
        true).completedClass
      = (⟨some 1, "A", false, none, some 0, false, false⟩ :
        TodoItem).completedClass :=
  ⟨rfl, (toggle_twice_round_trip FilterKind.all
    ⟨some 1, "A", false, none, some 0, false, false⟩ 5 6 rfl).1⟩

/-- C3 counterexample: two completed items with ids 1 and 2; the remote
delete of id 1 succeeds and that of id 2 fails.  `Promise.all` rejects, the
catch block runs, and the resulting list is unchanged — the item whose
delete succeeded (id 1) is NOT removed from the list, contradicting the
claim that every successfully deleted task is removed. -/
theorem clearCompleted_partial_failure_cex :
    ((fun id => id == 1) : Nat → Bool) 1 = true ∧
    ([(⟨some 1, "A", true, some 0, some 0, false, false⟩ : TodoItem),
      ⟨some 2, "B", true, some 0, some 0, false, false⟩].any
        (fun t => t.todoId == some 1 && t.completedClass)) = true ∧
    (clearCompletedTodos FilterKind.all
        [⟨some 1, "A", true, some 0, some 0, false, false⟩,
         ⟨some 2, "B", true, some 0, some 0, false, false⟩] true
        (fun id => id == 1)).1
      = [⟨some 1, "A", true, some 0, some 0, false, false⟩,
         ⟨some 2, "B", true, some 0, some 0, false, false⟩] := by
  decide

/-- C3 (amended): the per-id remote deletes of `clearCompletedTodos` and
`clearAllTodos` are issued independently — the set of issued deletes is
exactly the ids of the targeted items, regardless of any outcome, and
remote successes are never undone — but the list update is all-or-nothing:
when every issued delete succeeds, exactly the targeted items are removed;
when any one fails, the list is left entirely unchanged, so items whose
delete succeeded remotely remain in the list alongside the failed ones. -/
theorem clear_ops_partial_failure_policy (f : FilterKind)
    (l : List TodoItem) (ok : Nat → Bool)
    (hc : (l.filter (fun t => t.completedClass)).isEmpty = false)
    (ha : l.isEmpty = false) :
    (clearCompletedTodos f l true ok).2
        = (l.filter (fun t => t.completedClass)).filterMap
            (fun t => t.todoId) ∧
    ((clearCompletedTodos f l true ok).2.all ok = true →
      (clearCompletedTodos f l true ok).1
        = applyFilter f (l.filter (fun t => !t.completedClass))) ∧
    ((clearCompletedTodos f l true ok).2.all ok = false →
      (clearCompletedTodos f l true ok).1 = l) ∧
    (clearAllTodos l true ok).2 = l.filterMap (fun t => t.todoId) ∧
    ((clearAllTodos l true ok).2.all ok = true →
      (clearAllTodos l true ok).1 = []) ∧
    ((clearAllTodos l true ok).2.all ok = false →
      (clearAllTodos l true ok).1 = l) := by
  cases h1 : ((l.filter (fun t => t.completedClass)).filterMap
      (fun t => t.todoId)).all ok <;>
    cases h2 : (l.filterMap (fun t => t.todoId)).all ok <;>
      simp [clearCompletedTodos, clearAllTodos, hc, ha, h1, h2]

/-- Witness for the amended C3: one completed and one active item, the
delete of id 2 failing. -/
theorem clear_ops_partial_failure_policy_witness :
    ([(⟨some 1, "A", false, none, some 0, false, false⟩ : TodoItem),
      ⟨some 2, "B", true, some 0, some 0, false, false⟩].filter
        (fun t => t.completedClass)).isEmpty = false ∧
    ([(⟨some 1, "A", false, none, some 0, false, false⟩ : TodoItem),
      ⟨some 2, "B", true, some 0, some 0, false, false⟩]).isEmpty
        = false ∧
    (clearCompletedTodos FilterKind.all
        [⟨some 1, "A", false, none, some 0, false, false⟩,
         ⟨some 2, "B", true, some 0, some 0, false, false⟩] true
        (fun _ => false)).2
      = ([(⟨some 1, "A", false, none, some 0, false, false⟩ : TodoItem),
          ⟨some 2, "B", true, some 0, some 0, false, false⟩].filter
            (fun t => t.completedClass)).filterMap (fun t => t.todoId) :=
  ⟨by decide, by decide, (clear_ops_partial_failure_policy FilterKind.all
    [⟨some 1, "A", false, none, some 0, false, false⟩,
     ⟨some 2, "B", true, some 0, some 0, false, false⟩]
    (fun _ => false) (by decide) (by decide)).1⟩

/-- C9 counterexample: two overlapping `_apiRequest` calls.  After the
trace start-start-stop one request is still in flight, yet the loading bar
is already off: `_hideLoading` in the `finally` block of the first request
removed the "active" class unconditionally.  The signal is a boolean CSS
class, not a counter. -/
theorem loading_not_counted_cex :
    inFlightAfter [LoadEvent.start, LoadEvent.start, LoadEvent.stop] = 1 ∧
    loadingAfter [LoadEvent.start, LoadEvent.start, LoadEvent.stop]
        = false := by
  decide

/-- C9 (amended): the busy signal is boolean, not counted: the presence of
the "active" class after any event sequence is decided solely by the last
event — any `_showLoading` turns it on and any `_hideLoading` turns it off,
even while other remote calls are still in flight. -/
theorem loading_last_event_wins (es : List LoadEvent) :
    loadingAfter (es ++ [LoadEvent.start]) = true ∧
    loadingAfter (es ++ [LoadEvent.stop]) = false := by
  simp [loadingAfter, List.foldl_append, loadingStep]

end TodoApp

